import Mathlib

/-!
Verification of the Filtr credential-pool / rate-limited-dispatch core and its
frontend session-cap mirror.

The frontend definitions are shallow embeddings of
`src/frontend/src/app/pagepre.tsx` (the current page component).  The backend
components (`key_pool.py`, the query-cap logic of `main.py`,
`vector_store.py`) are documented in the repository's README and specified in
`spec.md` but their sources are not part of this tree; those definitions are
modelled from the spec and are marked as such in their doc comments.

Conventions: timestamps and durations are natural numbers (seconds); strings
of the TypeScript code become `String` or `List Char`; `fetch` calls are made
explicit, either as a count of network calls performed or as a trace of calls.
-/

namespace Filtr

/-! ## Frontend constants and string helpers (pagepre.tsx) -/

/-- `const QUERY_CAP = 4` (pagepre.tsx line 8). -/
def QUERY_CAP : Nat := 4

/-- JavaScript `a || b` on strings: the default is used when the value is
absent (`undefined`) or the empty string (falsy). -/
def orDefault (v : Option String) (dflt : String) : String :=
  match v with
  | some s => if s = "" then dflt else s
  | none => dflt

/-- JavaScript `String.prototype.trim`: strip whitespace from both ends
(modelled on the character list underlying the string). -/
def jsTrim (s : String) : String :=
  ⟨((s.toList.dropWhile Char.isWhitespace).reverse.dropWhile
      Char.isWhitespace).reverse⟩

/-- Whether `pat` occurs at the start of `s` (helper for `containsSub`). -/
def startsWithList : List Char → List Char → Bool
  | [], _ => true
  | _ :: _, [] => false
  | a :: as, b :: bs => a = b && startsWithList as bs

/-- Whether `pat` occurs as a contiguous substring of `s`
(model of JavaScript `String.prototype.includes`). -/
def containsSub (pat : List Char) : List Char → Bool
  | [] => pat.isEmpty
  | c :: rest => startsWithList pat (c :: rest) || containsSub pat rest

/-- `s.includes(pat)` for Lean strings. -/
def strIncludes (s pat : String) : Bool :=
  containsSub pat.toList s.toList

/-! ## Frontend data model (pagepre.tsx interfaces) -/

/-- `type SourceType = 'slack' | 'jira' | 'transcript'`. -/
inductive SourceType
  | slack
  | jira
  | transcript
deriving DecidableEq, Repr

/-- `interface Source` — the retrieved-chunk record rendered by `SourceCard`.
`text` is modelled as a list of characters (a JS string is a sequence of
code units). -/
structure Source where
  text : List Char
  source_file : String
  source_type : SourceType
  score : Int
deriving DecidableEq, Repr

/-- `interface QueryResult` — payload of a successful `/query` response. -/
structure QueryResult where
  answer : String
  sources : List Source
  query : String
deriving DecidableEq, Repr

/-! ## SourceCard preview (pagepre.tsx lines 127-148) -/

/-- `const preview = source.text.length > 120 ? source.text.slice(0, 120) + '...' : source.text`. -/
def preview (text : List Char) : List Char :=
  if text.length > 120 then text.take 120 ++ ['.', '.', '.'] else text

/-- The expand/collapse button is rendered iff `source.text.length > 120`
(the `{source.text.length > 120 && (<button …>)}` guard). -/
def showMoreToggle (text : List Char) : Bool :=
  text.length > 120

/-- The text shown in the card body: `expanded ? source.text : preview`. -/
def displayedText (expanded : Bool) (text : List Char) : List Char :=
  if expanded then text else preview text

/-! ## Home component state and `handleQuery` (pagepre.tsx lines 272-442)

Only the state hooks touched by `handleQuery` and `goHome` are modelled.
`handleQuery` is modelled as a pure transition: given the optional suggestion
argument `q`, the server's response to the single `/query` fetch, and the
current state, it returns the new state together with the number of network
calls it performed (0 or 1). -/

structure HomeState where
  sessionId : Option String
  query : String
  lastQuery : Option String
  querying : Bool
  result : Option QueryResult
  queryError : Option String
  queriesUsed : Nat
  capReached : Bool
deriving DecidableEq, Repr

/-- Outcome of the `/query` fetch: `res.ok` with parsed data, or a non-ok
response whose JSON body may carry a `detail` string. -/
inductive ServerResponse
  | ok (data : QueryResult)
  | notOk (detail : Option String)
deriving DecidableEq, Repr

/-- `err.detail?.includes('QUERY_CAP_REACHED')` — `false` when `detail` is
absent (optional chaining yields `undefined`, which is falsy). -/
def detailHasCapCode (detail : Option String) : Bool :=
  match detail with
  | some d => strIncludes d "QUERY_CAP_REACHED"
  | none => false

/-- `handleQuery` (pagepre.tsx lines 424-442).  Guard: an all-whitespace query
text, a missing session id, or `capReached` returns before any fetch.
Otherwise one fetch is performed; a non-ok response whose detail contains
`QUERY_CAP_REACHED` latches the cap without recording an error, any other
non-ok response records `err.detail || 'Query failed'`, and a success stores
the result and increments `queriesUsed`, latching `capReached` at the cap. -/
def handleQuery (qp : Option String) (resp : ServerResponse) (st : HomeState) :
    HomeState × Nat :=
  let queryText := orDefault qp st.query
  if jsTrim queryText = "" ∨ st.sessionId = none ∨ st.capReached = true then
    (st, 0)
  else
    let st1 : HomeState :=
      { st with querying := true, queryError := none, result := none,
                lastQuery := some queryText, query := "" }
    match resp with
    | .notOk detail =>
        if detailHasCapCode detail then
          ({ st1 with capReached := true, queriesUsed := QUERY_CAP,
                      querying := false }, 1)
        else
          ({ st1 with queryError := some (orDefault detail "Query failed"),
                      querying := false }, 1)
    | .ok data =>
        let next := st1.queriesUsed + 1
        ({ st1 with result := some data, queriesUsed := next,
                    capReached := if QUERY_CAP ≤ next then true else st1.capReached,
                    querying := false }, 1)

/-- `goHome` (pagepre.tsx lines 338-350), restricted to the modelled fields:
it discards the session and zeroes the query counter. -/
def goHome (st : HomeState) : HomeState :=
  { st with result := none, lastQuery := none, sessionId := none,
            queriesUsed := 0, capReached := false }

/-- Consistency of the cap mirror: the counter never exceeds the cap, and a
counter at the cap implies the `capReached` latch is set. -/
def QueryStateInv (st : HomeState) : Prop :=
  st.queriesUsed ≤ QUERY_CAP ∧ (QUERY_CAP ≤ st.queriesUsed → st.capReached = true)

/-! ## `handleUpload` ingest phase (pagepre.tsx lines 368-422)

`handleUpload` returns immediately when no file is selected; otherwise it
fires one keep-alive `/health` fetch and exactly one `/ingest` POST whose
form data contains every selected file (`files.forEach(file =>
formData.append('files', file))`).  The later `/insights` / `/suggestions`
fetches happen only after ingestion succeeded and are outside this model. -/

inductive ApiCall
  | health
  | ingest (files : List String)
deriving DecidableEq, Repr

def ApiCall.isIngest : ApiCall → Bool
  | .ingest _ => true
  | _ => false

/-- The network calls of the ingest phase of `handleUpload`, with files
identified by name. -/
def handleUploadCalls (files : List String) : List ApiCall :=
  if files.length = 0 then []
  else [ApiCall.health, ApiCall.ingest files]

/-! ## Backend: session query cap

Modelled from the spec: the `SessionQueryCapController` lives in the backend
(`main.py`, "FastAPI app, endpoints, query cap" per the README), which is not
under `src/`.  §3 and §4.3 of the spec define the `Session` record and
`try_admit`. -/

/-- Modelled from the spec: `Session {id, query_count, query_cap (default 4)}`
(§3; `created_at` is irrelevant to the modelled operations and omitted). -/
structure Session where
  id : String
  query_count : Nat
  query_cap : Nat
deriving DecidableEq, Repr

inductive AdmitResult
  | admitted
  | sessionCapReached
deriving DecidableEq, Repr

/-- Modelled from the spec: `try_admit(session_id)` (§4.3) — if
`query_count < query_cap`, increment and return Admitted; else return
`SessionCapReached` without incrementing. -/
def try_admission (s : Session) : AdmitResult × Session :=
  if s.query_count < s.query_cap then
    (.admitted, { s with query_count := s.query_count + 1 })
  else
    (.sessionCapReached, s)

/-- Modelled from the spec: `GenerationClient.answer_query` (§4.4) — call
`try_admit` first; on rejection return `SessionCapReached` without
dispatching; on admission submit one call against the generation pool.
`dispatchOk` is the outcome of that underlying dispatch (§4.3: a later
failure does not refund the count).  The final component counts the
dispatched generation calls. -/
def answer_query (dispatchOk : Bool) (s : Session) :
    AdmitResult × Session × Nat :=
  match try_admission s with
  | (.admitted, s') => (.admitted, s', 1)
  | (.sessionCapReached, s') => (.sessionCapReached, s', 0)

/-- The session after `n` consecutive `answer_query` calls (pool healthy). -/
def answerIter : Nat → Session → Session
  | 0, s => s
  | n + 1, s => (answer_query true (answerIter n s)).2.1

/-- Modelled from the spec: the error code surfaced upward for a cap
rejection (§6): `SessionCapReached` maps to `"QUERY_CAP_REACHED"`. -/
def capErrorCode : AdmitResult → Option String
  | .sessionCapReached => some "QUERY_CAP_REACHED"
  | .admitted => none

/-! ## Backend: credential pool

Modelled from the spec: `key_pool.py` ("KeyPoolManager — rate limit
rotation" per the README) is not under `src/`.  §3 and §4.1 define the
`Credential` and `CredentialPool` records and their operations. -/

/-- Modelled from the spec: `Credential {id, cooldown_until}` (§3).  The
`state ∈ {Available, Cooling}` field is derived — "a Credential is
considered Available if and only if `now ≥ cooldown_until`; this is a
derived property, never stored redundantly" — so only the timestamp is
stored.  `provider`/`capability_class` are immutable identity data not
touched by the modelled operations. -/
structure Credential where
  id : Nat
  cooldown_until : Nat
deriving DecidableEq, Repr

/-- Modelled from the spec: `is_available(credential_id)` → `now ≥
cooldown_until` (§4.1). -/
def Credential.is_available (now : Nat) (c : Credential) : Bool :=
  decide (c.cooldown_until ≤ now)

/-- Modelled from the spec: the per-credential effect of
`mark_cooling(credential_id, duration)` (§4.1): `cooldown_until := max
(existing, now + duration)` — the spec fixes the max policy explicitly. -/
def mark_cooling (now d : Nat) (c : Credential) : Credential :=
  { c with cooldown_until := max c.cooldown_until (now + d) }

/-- Modelled from the spec: `cooldown_duration` configuration default,
65 seconds (§6; README: "mark key as cooling for 65s"). -/
def cooldown_duration : Nat := 65

def defaultCred : Credential := ⟨0, 0⟩

/-- Modelled from the spec: `CredentialPool {creds (fixed, non-empty),
rotation_cursor}` (§3); the cursor is always taken modulo pool size. -/
structure CredentialPool where
  creds : List Credential
  rotation_cursor : Nat
deriving DecidableEq, Repr

/-- Modelled from the spec: `next_candidate()` (§4.1) — return the
credential pointed to by `rotation_cursor`, then advance the cursor by 1
(mod pool size), regardless of that credential's availability (the
function does not even read the clock). -/
def next_candidate (p : CredentialPool) : Credential × CredentialPool :=
  (p.creds.getD (p.rotation_cursor % p.creds.length) defaultCred,
   { p with rotation_cursor := (p.rotation_cursor + 1) % p.creds.length })

/-- The credentials returned by `n` consecutive `next_candidate()` calls. -/
def rotateCalls : Nat → CredentialPool → List Credential
  | 0, _ => []
  | n + 1, p => (next_candidate p).1 :: rotateCalls n (next_candidate p).2

/-- Modelled from the spec: `mark_cooling(credential_id, duration)` on the
pool (§4.1), applied at time `now`. -/
def CredentialPool.mark_cooling (p : CredentialPool) (cid : Nat) (now d : Nat) :
    CredentialPool :=
  { p with creds := p.creds.map fun c =>
      if c.id = cid then Filtr.mark_cooling now d c else c }

/-! ## Backend: rate-limited dispatcher

Modelled from the spec: the dispatch loop of §4.2.  The external call is an
oracle `f : Credential → CallResult` classifying each invocation's outcome
(§9: "a pure classification function … → ErrorKind").  The dispatcher is a
total function — it never waits for a cooldown to expire; the `fuel`
argument is the remaining attempt budget, initially the pool size. -/

/-- Outcome classification of one external call (§4.2 c-g, §7). -/
inductive CallResult
  | success
  | throttled
  | transient
  | fatal
deriving DecidableEq, Repr

/-- Terminal result of a dispatch (§7). -/
inductive DispatchResult
  | ok
  | fatalFailure
  | poolExhausted
deriving DecidableEq, Repr

/-- Modelled from the spec: the bounded retry loop of §4.2, step 1.  Returns
the result together with the number of external calls actually invoked. -/
def dispatchLoop (now d : Nat) (f : Credential → CallResult) :
    Nat → CredentialPool → DispatchResult × Nat
  | 0, _ => (.poolExhausted, 0)
  | fuel + 1, p =>
      let cand := (next_candidate p).1
      let p' := (next_candidate p).2
      if cand.is_available now then
        match f cand with
        | .success => (.ok, 1)
        | .fatal => (.fatalFailure, 1)
        | .throttled =>
            let r := dispatchLoop now d f fuel (p'.mark_cooling cand.id now d)
            (r.1, r.2 + 1)
        | .transient =>
            let r := dispatchLoop now d f fuel p'
            (r.1, r.2 + 1)
      else
        dispatchLoop now d f fuel p'

/-- Modelled from the spec: `dispatch` (§4.2) — at most `N = pool size`
attempts, then `PoolExhausted`. -/
def dispatch (now : Nat) (f : Credential → CallResult) (p : CredentialPool) :
    DispatchResult × Nat :=
  dispatchLoop now cooldown_duration f p.creds.length p

/-- Modelled from the spec: error code surfaced upward for pool exhaustion
(§6): `PoolExhausted` maps to `"ALL_KEYS_COOLING"`. -/
def surfaceCode : DispatchResult → Option String
  | .poolExhausted => some "ALL_KEYS_COOLING"
  | _ => none

/-- Modelled from the spec: `EmbeddingBatchClient.embed_all(chunks)` (§4.4) —
the backend `vector_store.py` implementing it is not under `src/`.  It
"builds exactly one payload containing every chunk for a session and submits
it once through the dispatcher"; the returned list is the list of payloads
dispatched, in order. -/
def embed_all (chunks : List String) : List (List String) :=
  [chunks]

/-! ## Helper lemmas -/

/-- A capped-out state makes `handleQuery` return before doing anything. -/
theorem handleQuery_of_capReached (qp : Option String) (resp : ServerResponse)
    (st : HomeState) (h : st.capReached = true) :
    handleQuery qp resp st = (st, 0) := by
  simp [handleQuery, h]

/-- `handleQuery` preserves the cap-mirror invariant. -/
theorem handleQuery_inv (qp : Option String) (resp : ServerResponse)
    (st : HomeState) (h : QueryStateInv st) :
    QueryStateInv (handleQuery qp resp st).1 := by
  obtain ⟨h1, h2⟩ := h
  by_cases hg : jsTrim (orDefault qp st.query) = "" ∨ st.sessionId = none ∨
      st.capReached = true
  · simp only [handleQuery, if_pos hg]
    exact ⟨h1, h2⟩
  · have hcap : ¬ st.capReached = true := fun hc => hg (Or.inr (Or.inr hc))
    have hlt : st.queriesUsed < QUERY_CAP := by
      by_contra hge
      exact hcap (h2 (Nat.le_of_not_lt hge))
    cases resp with
    | ok data =>
        simp only [handleQuery, if_neg hg, QueryStateInv]
        refine ⟨?_, fun hle => ?_⟩
        · dsimp only
          omega
        · simp [hle]
    | notOk detail =>
        by_cases hd : detailHasCapCode detail = true
        · simp only [handleQuery, if_neg hg, if_pos hd]
          exact ⟨Nat.le_refl _, fun _ => rfl⟩
        · simp only [handleQuery, if_neg hg, if_neg hd]
          exact ⟨h1, h2⟩

/-- Under the invariant, `handleQuery` never decreases the counter. -/
theorem handleQuery_mono (qp : Option String) (resp : ServerResponse)
    (st : HomeState) (h : QueryStateInv st) :
    st.queriesUsed ≤ (handleQuery qp resp st).1.queriesUsed := by
  obtain ⟨h1, _⟩ := h
  by_cases hg : jsTrim (orDefault qp st.query) = "" ∨ st.sessionId = none ∨
      st.capReached = true
  · simp only [handleQuery, if_pos hg]
    exact Nat.le_refl _
  · cases resp with
    | ok data =>
        simp only [handleQuery, if_neg hg]
        omega
    | notOk detail =>
        by_cases hd : detailHasCapCode detail = true
        · simp only [handleQuery, if_neg hg, if_pos hd]
          exact h1
        · simp only [handleQuery, if_neg hg, if_neg hd]
          exact Nat.le_refl _

/-- The session coming out of `answer_query` is exactly the one produced by
`try_admit`: the dispatch outcome never touches it. -/
theorem answer_query_session (b : Bool) (s : Session) :
    (answer_query b s).2.1 = (try_admission s).2 := by
  unfold answer_query
  rcases h : try_admission s with ⟨r, s'⟩
  cases r <;> simp [h]

theorem try_admission_cap (s : Session) :
    (try_admission s).2.query_cap = s.query_cap := by
  unfold try_admission
  split <;> rfl

theorem try_admission_count (s : Session) :
    (try_admission s).2.query_count =
      if s.query_count < s.query_cap then s.query_count + 1
      else s.query_count := by
  unfold try_admission
  split <;> rfl

/-- Counter value after `n` healthy `answer_query` calls on a fresh session:
the cap is preserved and the counter climbs to `min n query_cap`. -/
theorem answerIter_spec (s : Session) (h0 : s.query_count = 0) (n : Nat) :
    (answerIter n s).query_cap = s.query_cap ∧
    (answerIter n s).query_count = min n s.query_cap := by
  induction n with
  | zero => simp [answerIter, h0]
  | succ n ih =>
      obtain ⟨hc, hq⟩ := ih
      have e : answerIter (n + 1) s = (try_admission (answerIter n s)).2 := by
        rw [answerIter, answer_query_session]
      rw [e, try_admission_cap, try_admission_count, hc, hq]
      exact ⟨rfl, by split <;> omega⟩

/-- The results of `n` consecutive `next_candidate()` calls, indexed from the
current cursor. -/
theorem rotateCalls_eq_map (n : Nat) :
    ∀ p : CredentialPool,
      rotateCalls n p =
        (List.range n).map
          (fun i => p.creds.getD ((p.rotation_cursor + i) % p.creds.length)
            defaultCred) := by
  induction n with
  | zero => intro p; simp [rotateCalls]
  | succ n ih =>
      intro p
      rw [rotateCalls, ih, List.range_succ_eq_map, List.map_cons, List.map_map]
      refine congrArg₂ _ (by simp [next_candidate]) ?_
      refine List.map_congr_left fun i _ => ?_
      simp only [next_candidate, Function.comp_apply]
      rw [Nat.mod_add_mod]
      have e : p.rotation_cursor + 1 + i = p.rotation_cursor + (i + 1) := by omega
      rw [e]

/-- `N` consecutive `next_candidate()` calls walk the roster cyclically from
the cursor: the results are exactly `creds` rotated by the cursor. -/
theorem rotateCalls_rotate (p : CredentialPool) (h : 0 < p.creds.length) :
    rotateCalls p.creds.length p =
      p.creds.rotate (p.rotation_cursor % p.creds.length) := by
  rw [rotateCalls_eq_map]
  refine List.ext_get ?_ fun i h1 h2 => ?_
  · simp [List.length_rotate]
  · simp only [List.get_eq_getElem, List.getElem_map, List.getElem_range,
      List.getElem_rotate]
    rw [List.getD_eq_getElem _ _ (Nat.mod_lt _ h)]
    congr 1
    rw [Nat.add_mod_mod]
    have e : i + p.rotation_cursor = p.rotation_cursor + i := by omega
    rw [e]

/-- If every invoked external call comes back throttled or transient, the
dispatch loop exhausts its attempt budget, returning `PoolExhausted` and
invoking at most `fuel` external calls. -/
theorem dispatchLoop_exhaust (now d : Nat) (f : Credential → CallResult)
    (hf : ∀ c, f c = CallResult.throttled ∨ f c = CallResult.transient) :
    ∀ (fuel : Nat) (p : CredentialPool),
      (dispatchLoop now d f fuel p).1 = DispatchResult.poolExhausted ∧
      (dispatchLoop now d f fuel p).2 ≤ fuel := by
  intro fuel
  induction fuel with
  | zero => intro p; simp [dispatchLoop]
  | succ n ih =>
      intro p
      simp only [dispatchLoop]
      by_cases ha : ((next_candidate p).1).is_available now = true
      · rw [if_pos ha]
        rcases hf (next_candidate p).1 with hc | hc <;> rw [hc]
        · exact ⟨(ih _).1, Nat.succ_le_succ (ih _).2⟩
        · exact ⟨(ih _).1, Nat.succ_le_succ (ih _).2⟩
      · rw [if_neg ha]
        exact ⟨(ih _).1, Nat.le_succ_of_le (ih _).2⟩

/-- An `answer_query` call on a not-yet-capped session is admitted and
dispatches exactly one generation call. -/
theorem answer_query_admitted (b : Bool) (s : Session)
    (h : s.query_count < s.query_cap) :
    (answer_query b s).1 = AdmitResult.admitted ∧
    (answer_query b s).2.2 = 1 := by
  simp [answer_query, try_admission, h]

/-- An `answer_query` call on a capped session is rejected and dispatches
nothing. -/
theorem answer_query_reject (b : Bool) (s : Session)
    (h : ¬ s.query_count < s.query_cap) :
    (answer_query b s).1 = AdmitResult.sessionCapReached ∧
    (answer_query b s).2.2 = 0 := by
  simp [answer_query, try_admission, h]

/-! ## Claim theorems -/

/-- C1 (Cap enforcement): for a session with `query_cap = 4` and a fresh
counter, the 1st through 4th `answer_query` calls are admitted (pool
healthy), and the 5th returns `SessionCapReached` — surfaced upward as
`QUERY_CAP_REACHED` — while performing zero dispatched generation calls. -/
theorem cap_enforcement (s : Session) (hcap : s.query_cap = 4)
    (h0 : s.query_count = 0) :
    (answer_query true (answerIter 0 s)).1 = AdmitResult.admitted ∧
    (answer_query true (answerIter 1 s)).1 = AdmitResult.admitted ∧
    (answer_query true (answerIter 2 s)).1 = AdmitResult.admitted ∧
    (answer_query true (answerIter 3 s)).1 = AdmitResult.admitted ∧
    (answer_query true (answerIter 4 s)).1 = AdmitResult.sessionCapReached ∧
    capErrorCode (answer_query true (answerIter 4 s)).1 =
      some "QUERY_CAP_REACHED" ∧
    (answer_query true (answerIter 4 s)).2.2 = 0 := by
  have hcnt := fun n => (answerIter_spec s h0 n).2
  have hcp := fun n => (answerIter_spec s h0 n).1
  have adm : ∀ n, n < 4 →
      (answerIter n s).query_count < (answerIter n s).query_cap := by
    intro n hn
    rw [hcnt n, hcp n, hcap]
    omega
  have rej : ¬ (answerIter 4 s).query_count < (answerIter 4 s).query_cap := by
    rw [hcnt 4, hcp 4, hcap]
    omega
  refine ⟨(answer_query_admitted true _ (adm 0 (by omega))).1,
    (answer_query_admitted true _ (adm 1 (by omega))).1,
    (answer_query_admitted true _ (adm 2 (by omega))).1,
    (answer_query_admitted true _ (adm 3 (by omega))).1,
    (answer_query_reject true _ rej).1, ?_,
    (answer_query_reject true _ rej).2⟩
  rw [(answer_query_reject true _ rej).1]
  rfl

theorem cap_enforcement_witness :
    (answer_query true (answerIter 0 (⟨"s1", 0, 4⟩ : Session))).1 =
      AdmitResult.admitted ∧
    (answer_query true (answerIter 4 (⟨"s1", 0, 4⟩ : Session))).1 =
      AdmitResult.sessionCapReached ∧
    (answer_query true (answerIter 4 (⟨"s1", 0, 4⟩ : Session))).2.2 = 0 :=
  ⟨(cap_enforcement ⟨"s1", 0, 4⟩ rfl rfl).1,
   (cap_enforcement ⟨"s1", 0, 4⟩ rfl rfl).2.2.2.2.1,
   (cap_enforcement ⟨"s1", 0, 4⟩ rfl rfl).2.2.2.2.2.2⟩

/-- C2 (Session counter invariant): counters are naturals, so
`0 ≤ query_count` holds by type; `try_admit` keeps
`query_count ≤ query_cap`, never decreases the counter and never changes the
cap; the frontend mirror `queriesUsed` obeys the same bound and is
non-decreasing under `handleQuery`; and the modelled operation that zeroes
the counter, `goHome`, simultaneously discards the session — the counter
restarts at zero only with a new session. -/
theorem session_counter_invariant :
    (∀ s : Session, s.query_count ≤ s.query_cap →
        s.query_count ≤ (try_admission s).2.query_count ∧
        (try_admission s).2.query_count ≤ (try_admission s).2.query_cap ∧
        (try_admission s).2.query_cap = s.query_cap) ∧
    (∀ (st : HomeState) (qp : Option String) (resp : ServerResponse),
        QueryStateInv st →
        QueryStateInv (handleQuery qp resp st).1 ∧
        st.queriesUsed ≤ (handleQuery qp resp st).1.queriesUsed) ∧
    (∀ st : HomeState,
        (goHome st).queriesUsed = 0 ∧ (goHome st).sessionId = none) := by
  refine ⟨fun s h => ?_,
    fun st qp resp h =>
      ⟨handleQuery_inv qp resp st h, handleQuery_mono qp resp st h⟩,
    fun st => ⟨rfl, rfl⟩⟩
  refine ⟨?_, ?_, try_admission_cap s⟩
  · rw [try_admission_count]
    split <;> omega
  · rw [try_admission_count, try_admission_cap]
    split <;> omega

theorem session_counter_invariant_witness :
    QueryStateInv
      (⟨some "sid", "hi", none, false, none, none, 2, false⟩ : HomeState) ∧
    QueryStateInv (handleQuery none (ServerResponse.notOk (some "boom"))
      (⟨some "sid", "hi", none, false, none, none, 2, false⟩ : HomeState)).1 :=
  have hInv : QueryStateInv
      (⟨some "sid", "hi", none, false, none, none, 2, false⟩ : HomeState) :=
    ⟨by decide, fun h => absurd h (by decide)⟩
  ⟨hInv, (session_counter_invariant.2.1 _ none _ hInv).1⟩

/-- C3 (Irreversible admission): an admitted `answer_query` call increments
the session counter, and the resulting session is the same whether the
underlying dispatch fails or succeeds — the cap bounds attempts, not
successes, and no refund happens on failure. -/
theorem admission_irreversible (s : Session)
    (h : s.query_count < s.query_cap) :
    (answer_query false s).1 = AdmitResult.admitted ∧
    (answer_query false s).2.1.query_count = s.query_count + 1 ∧
    (answer_query false s).2.1 = (answer_query true s).2.1 := by
  refine ⟨(answer_query_admitted false s h).1, ?_, ?_⟩
  · rw [answer_query_session, try_admission_count, if_pos h]
  · rw [answer_query_session, answer_query_session]

theorem admission_irreversible_witness :
    (answer_query false (⟨"w", 1, 4⟩ : Session)).1 = AdmitResult.admitted ∧
    (answer_query false (⟨"w", 1, 4⟩ : Session)).2.1.query_count = 1 + 1 ∧
    (answer_query false (⟨"w", 1, 4⟩ : Session)).2.1 =
      (answer_query true (⟨"w", 1, 4⟩ : Session)).2.1 :=
  admission_irreversible ⟨"w", 1, 4⟩ (by decide)

/-- C4 (Capped sessions never dispatch): once `capReached` holds,
`handleQuery` returns with the state untouched and zero network calls, and
the latch survives every later `handleQuery`; on the backend side, a session
at its cap is rejected by `answer_query` with zero dispatched calls. -/
theorem capped_never_dispatch :
    (∀ (st : HomeState) (qp : Option String) (resp : ServerResponse),
        st.capReached = true → handleQuery qp resp st = (st, 0)) ∧
    (∀ (st : HomeState) (qp : Option String) (resp : ServerResponse),
        st.capReached = true → (handleQuery qp resp st).1.capReached = true) ∧
    (∀ s : Session, s.query_cap ≤ s.query_count →
        (answer_query true s).1 = AdmitResult.sessionCapReached ∧
        (answer_query true s).2.2 = 0) :=
  ⟨fun st qp resp h => handleQuery_of_capReached qp resp st h,
   fun st qp resp h => by rw [handleQuery_of_capReached qp resp st h]; exact h,
   fun s h => answer_query_reject true s (Nat.not_lt.mpr h)⟩

theorem capped_never_dispatch_witness :
    handleQuery none (ServerResponse.notOk none)
      (⟨some "sid", "hi", none, false, none, none, 4, true⟩ : HomeState) =
      ((⟨some "sid", "hi", none, false, none, none, 4, true⟩ : HomeState), 0) :=
  capped_never_dispatch.1 _ none _ rfl

/-- C5 (Batching invariant): `embed_all` dispatches exactly one payload, and
that payload is exactly the session's chunk list; on the frontend, the
ingest phase of `handleUpload` issues exactly one `/ingest` call, carrying
every selected file. -/
theorem batching_invariant (chunks files : List String) (hf : files ≠ []) :
    (embed_all chunks).length = 1 ∧
    (embed_all chunks).flatten = chunks ∧
    (handleUploadCalls files).countP ApiCall.isIngest = 1 ∧
    ApiCall.ingest files ∈ handleUploadCalls files := by
  refine ⟨rfl, by simp [embed_all], ?_, ?_⟩ <;>
    simp [handleUploadCalls, hf, ApiCall.isIngest, List.countP_cons]

theorem batching_invariant_witness :
    (embed_all (List.replicate 50 "chunk")).length = 1 ∧
    (embed_all (List.replicate 50 "chunk")).flatten = List.replicate 50 "chunk" ∧
    (handleUploadCalls ["slack.json", "jira.csv"]).countP ApiCall.isIngest
      = 1 ∧
    ApiCall.ingest ["slack.json", "jira.csv"] ∈
      handleUploadCalls ["slack.json", "jira.csv"] :=
  batching_invariant _ _ (by simp)

/-- C6 (Round-robin fairness): over a non-empty pool, `N = pool size`
consecutive `next_candidate()` calls return the roster rotated to the
cursor — so each credential exactly once (a permutation of the roster), in
the fixed cyclical order; and a single call returns the credential at
`rotation_cursor` and advances the cursor by 1 modulo the pool size while
leaving the roster untouched, independently of any availability state
(`next_candidate` never reads the clock or `cooldown_until`). -/
theorem round_robin_fairness (p : CredentialPool)
    (h : 0 < p.creds.length) :
    rotateCalls p.creds.length p =
      p.creds.rotate (p.rotation_cursor % p.creds.length) ∧
    (rotateCalls p.creds.length p).Perm p.creds ∧
    (next_candidate p).1 =
      p.creds.getD (p.rotation_cursor % p.creds.length) defaultCred ∧
    (next_candidate p).2.rotation_cursor =
      (p.rotation_cursor + 1) % p.creds.length ∧
    (next_candidate p).2.creds = p.creds := by
  refine ⟨rotateCalls_rotate p h, ?_, rfl, rfl, rfl⟩
  rw [rotateCalls_rotate p h]
  exact List.rotate_perm _ _

theorem round_robin_fairness_witness :
    rotateCalls 3 (⟨[⟨1, 0⟩, ⟨2, 0⟩, ⟨3, 0⟩], 1⟩ : CredentialPool) =
      ([⟨1, 0⟩, ⟨2, 0⟩, ⟨3, 0⟩] : List Credential).rotate 1 ∧
    (rotateCalls 3 (⟨[⟨1, 0⟩, ⟨2, 0⟩, ⟨3, 0⟩], 1⟩ : CredentialPool)).Perm
      [⟨1, 0⟩, ⟨2, 0⟩, ⟨3, 0⟩] :=
  ⟨(round_robin_fairness ⟨[⟨1, 0⟩, ⟨2, 0⟩, ⟨3, 0⟩], 1⟩ (by decide)).1,
   (round_robin_fairness ⟨[⟨1, 0⟩, ⟨2, 0⟩, ⟨3, 0⟩], 1⟩ (by decide)).2.1⟩

/-- C7 (Fail-fast pool exhaustion): when every invoked external call is a
throttling or transient failure — i.e. all `N` attempts complete without
success — `dispatch` returns `PoolExhausted`, surfaced upward as
`ALL_KEYS_COOLING`, and invokes at most `N = pool size` external calls.
The loop is a total function of the current clock value: it consumes one
unit of attempt budget per iteration and never waits for a cooldown to
expire. -/
theorem pool_exhaustion_failfast (now : Nat) (f : Credential → CallResult)
    (p : CredentialPool)
    (hf : ∀ c, f c = CallResult.throttled ∨ f c = CallResult.transient) :
    (dispatch now f p).1 = DispatchResult.poolExhausted ∧
    surfaceCode (dispatch now f p).1 = some "ALL_KEYS_COOLING" ∧
    (dispatch now f p).2 ≤ p.creds.length := by
  have h := dispatchLoop_exhaust now cooldown_duration f hf p.creds.length p
  have e : dispatch now f p =
      dispatchLoop now cooldown_duration f p.creds.length p := rfl
  rw [e]
  refine ⟨h.1, ?_, h.2⟩
  rw [h.1]
  rfl

theorem pool_exhaustion_failfast_witness :
    (dispatch 0 (fun _ => CallResult.throttled)
      (⟨[⟨1, 0⟩, ⟨2, 0⟩, ⟨3, 0⟩], 0⟩ : CredentialPool)).1 =
      DispatchResult.poolExhausted ∧
    surfaceCode (dispatch 0 (fun _ => CallResult.throttled)
      (⟨[⟨1, 0⟩, ⟨2, 0⟩, ⟨3, 0⟩], 0⟩ : CredentialPool)).1 =
      some "ALL_KEYS_COOLING" ∧
    (dispatch 0 (fun _ => CallResult.throttled)
      (⟨[⟨1, 0⟩, ⟨2, 0⟩, ⟨3, 0⟩], 0⟩ : CredentialPool)).2 ≤ 3 :=
  pool_exhaustion_failfast 0 (fun _ => CallResult.throttled)
    ⟨[⟨1, 0⟩, ⟨2, 0⟩, ⟨3, 0⟩], 0⟩ (fun _ => Or.inl rfl)

/-- C8, counterexample to the claim as stated: with the spec's mandated
`max(existing, new)` policy for `mark_cooling` (§4.1), a credential that
already carries a longer cooldown (`cooldown_until = 200`) is still
unavailable at `t = 100` even though `t ≥ now + d = 0 + 65` — the claim
asserts `is_available` is true at every `t ≥ now + d`. -/
theorem cooldown_claim_counterexample :
    0 + 65 ≤ 100 ∧
    Credential.is_available 100
      (mark_cooling 0 65 (⟨7, 200⟩ : Credential)) = false := by
  decide

/-- C8 as amended (Cooldown correctness): after `mark_cooling(c, d)` at time
`now`, `is_available(c)` is false at every `t < now + d`; and provided the
credential's pre-existing `cooldown_until` does not exceed `now + d` (in
particular whenever it was Available), `is_available(c)` is true at every
`t ≥ now + d`.  The configured `cooldown_duration` defaults to 65 seconds. -/
theorem cooldown_correctness (c : Credential) (now d t : Nat)
    (h : c.cooldown_until ≤ now + d) :
    (t < now + d →
      Credential.is_available t (mark_cooling now d c) = false) ∧
    (now + d ≤ t →
      Credential.is_available t (mark_cooling now d c) = true) ∧
    cooldown_duration = 65 := by
  refine ⟨fun ht => ?_, fun ht => ?_, rfl⟩ <;>
    simp only [Credential.is_available, mark_cooling, decide_eq_false_iff_not,
      decide_eq_true_eq, Nat.not_le] <;>
    omega

theorem cooldown_correctness_witness :
    (100 < 10 + 65 →
      Credential.is_available 100
        (mark_cooling 10 65 (⟨7, 3⟩ : Credential)) = false) ∧
    (10 + 65 ≤ 100 →
      Credential.is_available 100
        (mark_cooling 10 65 (⟨7, 3⟩ : Credential)) = true) ∧
    cooldown_duration = 65 :=
  cooldown_correctness ⟨7, 3⟩ 10 65 100 (by decide)

/-- C9 (Server-signalled cap synchronisation): when the guard passes and the
`/query` fetch comes back non-ok, a `detail` containing `QUERY_CAP_REACHED`
makes `handleQuery` latch `capReached`, set `queriesUsed` to `QUERY_CAP`,
and return with no error message recorded; any other non-ok response leaves
`capReached` and `queriesUsed` unchanged and records
`err.detail || 'Query failed'` as the error.  One fetch happens either
way. -/
theorem cap_code_sync (st : HomeState) (qp detail : Option String)
    (ht : ¬ jsTrim (orDefault qp st.query) = "")
    (hs : ¬ st.sessionId = none)
    (hc : ¬ st.capReached = true) :
    (detailHasCapCode detail = true →
      (handleQuery qp (ServerResponse.notOk detail) st).1.capReached = true ∧
      (handleQuery qp (ServerResponse.notOk detail) st).1.queriesUsed =
        QUERY_CAP ∧
      (handleQuery qp (ServerResponse.notOk detail) st).1.queryError = none ∧
      (handleQuery qp (ServerResponse.notOk detail) st).2 = 1) ∧
    (detailHasCapCode detail = false →
      (handleQuery qp (ServerResponse.notOk detail) st).1.capReached =
        st.capReached ∧
      (handleQuery qp (ServerResponse.notOk detail) st).1.queriesUsed =
        st.queriesUsed ∧
      (handleQuery qp (ServerResponse.notOk detail) st).1.queryError =
        some (orDefault detail "Query failed") ∧
      (handleQuery qp (ServerResponse.notOk detail) st).2 = 1) := by
  have hg : ¬ (jsTrim (orDefault qp st.query) = "" ∨ st.sessionId = none ∨
      st.capReached = true) := by
    intro hor
    rcases hor with h | h | h
    · exact ht h
    · exact hs h
    · exact hc h
  constructor
  · intro hd
    simp only [handleQuery, if_neg hg, if_pos hd]
    refine ⟨?_, ?_, ?_, ?_⟩ <;> trivial
  · intro hd
    have hd' : ¬ detailHasCapCode detail = true := by simp [hd]
    simp only [handleQuery, if_neg hg, if_neg hd']
    refine ⟨?_, ?_, ?_, ?_⟩ <;> trivial

theorem cap_code_sync_witness :
    (detailHasCapCode (some "429: QUERY_CAP_REACHED") = true →
      (handleQuery none (ServerResponse.notOk (some "429: QUERY_CAP_REACHED"))
        (⟨some "sid", "hello", none, false, none, none, 2, false⟩ :
          HomeState)).1.capReached = true ∧
      (handleQuery none (ServerResponse.notOk (some "429: QUERY_CAP_REACHED"))
        (⟨some "sid", "hello", none, false, none, none, 2, false⟩ :
          HomeState)).1.queriesUsed = QUERY_CAP ∧
      (handleQuery none (ServerResponse.notOk (some "429: QUERY_CAP_REACHED"))
        (⟨some "sid", "hello", none, false, none, none, 2, false⟩ :
          HomeState)).1.queryError = none ∧
      (handleQuery none (ServerResponse.notOk (some "429: QUERY_CAP_REACHED"))
        (⟨some "sid", "hello", none, false, none, none, 2, false⟩ :
          HomeState)).2 = 1) ∧
    (detailHasCapCode (some "429: QUERY_CAP_REACHED") = false →
      (handleQuery none (ServerResponse.notOk (some "429: QUERY_CAP_REACHED"))
        (⟨some "sid", "hello", none, false, none, none, 2, false⟩ :
          HomeState)).1.capReached = false ∧
      (handleQuery none (ServerResponse.notOk (some "429: QUERY_CAP_REACHED"))
        (⟨some "sid", "hello", none, false, none, none, 2, false⟩ :
          HomeState)).1.queriesUsed = 2 ∧
      (handleQuery none (ServerResponse.notOk (some "429: QUERY_CAP_REACHED"))
        (⟨some "sid", "hello", none, false, none, none, 2, false⟩ :
          HomeState)).1.queryError =
        some (orDefault (some "429: QUERY_CAP_REACHED") "Query failed") ∧
      (handleQuery none (ServerResponse.notOk (some "429: QUERY_CAP_REACHED"))
        (⟨some "sid", "hello", none, false, none, none, 2, false⟩ :
          HomeState)).2 = 1) :=
  cap_code_sync
    (⟨some "sid", "hello", none, false, none, none, 2, false⟩ : HomeState)
    none (some "429: QUERY_CAP_REACHED")
    (by decide) (by decide) (by decide)

/-- C10 (Source preview truncation): a chunk text of at most 120 characters
is shown whole, with no expand/collapse toggle; a longer text collapses to
exactly its first 120 characters followed by `...` (so the collapsed
preview is 123 characters long), the toggle is rendered, and the expanded
view shows the full text. -/
theorem source_preview_truncation (text : List Char) :
    (text.length ≤ 120 →
      preview text = text ∧
      showMoreToggle text = false ∧
      displayedText false text = text) ∧
    (120 < text.length →
      preview text = text.take 120 ++ ['.', '.', '.'] ∧
      (preview text).length = 123 ∧
      showMoreToggle text = true ∧
      displayedText false text = text.take 120 ++ ['.', '.', '.'] ∧
      displayedText true text = text) := by
  constructor
  · intro h
    have h' : ¬ text.length > 120 := by omega
    refine ⟨?_, ?_, ?_⟩ <;>
      simp [preview, showMoreToggle, displayedText, if_neg h', h']
  · intro h
    refine ⟨?_, ?_, ?_, ?_, ?_⟩ <;>
      simp [preview, showMoreToggle, displayedText, if_pos h, h] <;>
      omega

theorem source_preview_truncation_witness :
    preview (List.replicate 130 'a') =
      (List.replicate 130 'a').take 120 ++ ['.', '.', '.'] ∧
    (preview (List.replicate 130 'a')).length = 123 ∧
    showMoreToggle (List.replicate 130 'a') = true ∧
    displayedText true (List.replicate 130 'a') = List.replicate 130 'a' ∧
    preview (List.replicate 100 'b') = List.replicate 100 'b' ∧
    showMoreToggle (List.replicate 100 'b') = false :=
  ⟨((source_preview_truncation (List.replicate 130 'a')).2 (by simp)).1,
   ((source_preview_truncation (List.replicate 130 'a')).2 (by simp)).2.1,
   ((source_preview_truncation (List.replicate 130 'a')).2 (by simp)).2.2.1,
   ((source_preview_truncation (List.replicate 130 'a')).2 (by simp)).2.2.2.2,
   ((source_preview_truncation (List.replicate 100 'b')).1 (by simp)).1,
   ((source_preview_truncation (List.replicate 100 'b')).1 (by simp)).2.1⟩

end Filtr
